import Mathlib

/-!
Verification of the feedback-scraper orchestration core.

This file gives a shallow embedding, in Lean 4, of the parts of the
repository that the specification's testable properties talk about:

* `scraper/utils/hashing.py` and `scraper/schema.py` (fingerprint ids,
  `FeedbackItem` construction with its validators),
* `scraper/orchestrator.py` (`_run_single`, dedup-by-id, `run_scrapers`
  with its selection / enablement / ToS-gate filters and tier loop),
* `scraper/base.py` (`ScraperConfig.from_raw` defaulting chain),
* `scraper/utils/date_parser.py` (`normalize_date`).

Python dictionaries are modelled as association lists (first match wins,
as for an insertion-ordered dict with unique keys), Python `str` as Lean
`String` (a list of unicode scalar codepoints, matching Python slicing by
codepoint), Python floats occurring in the modelled code paths as exact
rationals (every number the claims mention is exactly representable), and
raised exceptions as `Except String` values carrying `str(exc)`.
External effects — the SHA-256 primitive of `hashlib`, the filesystem
freshness probe, the network scrape, the JSON write, and the
strptime/dateutil tail of `normalize_date` — enter the model as explicit
parameters or recorded outcomes, so each theorem quantifies over their
behaviour wherever the control flow can reach them.

The orchestrator runs tier1/tier2 sources on a small thread pool and
appends results in completion order; within a tier that order is not
specified, so the model executes each tier's sources sequentially in
scheduling order.  All properties proved here are order-insensitive
within a tier (they count results per source id), hence unaffected.
-/

namespace FeedbackScraper

/-! ### Python string helpers -/

/-- Python truthiness of an optional string: `None` and `""` are falsy.
This is the test performed by `if url:` / `elif author:` in
`make_feedback_id` (schema.py lines 50-54). -/
def pyTruthy : Option String → Bool
  | none => false
  | some s => !s.isEmpty

/-- Python slicing `s[:n]` by codepoint, as used for `body[:100]` and
`body[:200]` in schema.py. -/
def pyTake (n : Nat) (s : String) : String := ⟨s.data.take n⟩

/-- Whitespace characters removed by Python `str.strip()`: the
characters CPython's `str.isspace()` accepts (Unicode categories
Zs/Zl/Zp plus bidirectional classes WS, B and S), namely 0x09-0x0D,
0x1C-0x1F, the space 0x20, NEL 0x85, NBSP 0xA0, the Ogham space mark
0x1680, the spaces 0x2000-0x200A, the line and paragraph separators
0x2028/0x2029, the narrow no-break space 0x202F, the medium mathematical
space 0x205F and the ideographic space 0x3000. -/
def pyWS (c : Char) : Bool :=
  (decide (0x09 ≤ c.toNat) && decide (c.toNat ≤ 0x0d)) ||
    (decide (0x1c ≤ c.toNat) && decide (c.toNat ≤ 0x1f)) ||
    c.toNat == 0x20 || c.toNat == 0x85 || c.toNat == 0xa0 || c.toNat == 0x1680 ||
    (decide (0x2000 ≤ c.toNat) && decide (c.toNat ≤ 0x200a)) ||
    c.toNat == 0x2028 || c.toNat == 0x2029 || c.toNat == 0x202f ||
    c.toNat == 0x205f || c.toNat == 0x3000

/-- Python `str.strip()` on the underlying codepoint list. -/
def pyStripList (l : List Char) : List Char :=
  ((l.dropWhile pyWS).reverse.dropWhile pyWS).reverse

/-- Python `str.strip()`. -/
def pyStrip (s : String) : String := ⟨pyStripList s.data⟩

/-! ### Fingerprint ids (utils/hashing.py, schema.py)

`make_id(key) = sha256(key.encode()).hexdigest()` is an external crypto
primitive; it is modelled as an abstract function `makeId : String →
String`.  The distinctness claims hold under the collision-resistance
assumption, stated as injectivity of `makeId` on the key strings used. -/

/-- The key string built by `make_feedback_id` (schema.py lines 48-56)
before hashing: `source::url` when `url` is truthy, else
`source::author::body[:100]` when `author` is truthy, else
`source::body[:200]`. -/
def feedbackKey (source : String) (url author : Option String) (body : String) : String :=
  if pyTruthy url then
    source ++ "::" ++ url.getD ""
  else if pyTruthy author then
    source ++ "::" ++ author.getD "" ++ "::" ++ pyTake 100 body
  else
    source ++ "::" ++ pyTake 200 body

/-- Model of `make_feedback_id` (schema.py lines 48-56), parametrised by
the hash primitive `makeId` of `scraper/utils/hashing.py`. -/
def make_feedback_id (makeId : String → String)
    (source : String) (url author : Option String) (body : String) : String :=
  makeId (feedbackKey source url author body)

/-! ### FeedbackItem (schema.py) -/

/-- The canonical feedback record (schema.py lines 13-45) after
validation.  Ratings are modelled as exact rationals; `raw` is an opaque
debug payload, modelled as an optional opaque string. -/
structure FeedbackItem where
  id : String
  source : String
  product : String
  author : Option String := none
  rating : Option ℚ := none
  title : Option String := none
  body : String
  date : Option String := none
  url : Option String := none
  scraped_at : String := ""
  helpful_votes : Option Int := none
  verified_purchase : Option Bool := none
  language : Option String := none
  sentiment : Option String := none
  tags : List String := []
  raw : Option String := none
deriving DecidableEq, Repr

/-- Field validator `clamp_rating` (schema.py lines 31-36):
`None` passes through, otherwise `max(0.0, min(5.0, v))`. -/
def clamp_rating : Option ℚ → Option ℚ
  | none => none
  | some v => some (max 0 (min 5 v))

/-- Field validator `body_must_not_be_empty` (schema.py lines 38-43):
raises `ValueError` when the body is empty or strips to empty, otherwise
returns the stripped body. -/
def body_must_not_be_empty (v : String) : Except String String :=
  if v.isEmpty || (pyStrip v).isEmpty then .error "body must not be empty"
  else .ok (pyStrip v)

/-- The raw keyword arguments handed to the `FeedbackItem` pydantic
constructor, before field validators run. -/
structure FeedbackInput where
  id : String
  source : String
  product : String
  author : Option String := none
  rating : Option ℚ := none
  title : Option String := none
  body : String
  date : Option String := none
  url : Option String := none
  scraped_at : String := ""
  helpful_votes : Option Int := none
  verified_purchase : Option Bool := none
  language : Option String := none
  sentiment : Option String := none
  tags : List String := []
  raw : Option String := none

/-- Construction of a `FeedbackItem`: pydantic applies the two field
validators; a `ValueError` from a validator fails construction
(`ValidationError`), modelled as `Except.error`. -/
def FeedbackItem.make (x : FeedbackInput) : Except String FeedbackItem :=
  match body_must_not_be_empty x.body with
  | .error e => .error e
  | .ok b =>
    .ok { id := x.id, source := x.source, product := x.product, author := x.author,
          rating := clamp_rating x.rating, title := x.title, body := b, date := x.date,
          url := x.url, scraped_at := x.scraped_at, helpful_votes := x.helpful_votes,
          verified_purchase := x.verified_purchase, language := x.language,
          sentiment := x.sentiment, tags := x.tags, raw := x.raw }

/-- The record produced by a successful `FeedbackItem` construction:
every field as given, with the two validators' transformations applied
(rating clamped, body stripped). -/
def validatedItem (x : FeedbackInput) : FeedbackItem :=
  { id := x.id, source := x.source, product := x.product, author := x.author,
    rating := clamp_rating x.rating, title := x.title, body := pyStrip x.body,
    date := x.date, url := x.url, scraped_at := x.scraped_at,
    helpful_votes := x.helpful_votes, verified_purchase := x.verified_purchase,
    language := x.language, sentiment := x.sentiment, tags := x.tags, raw := x.raw }

/-! ### Per-source pipeline (orchestrator.py `_run_single`) -/

/-- Adapter tiers (base.py line 70; orchestrator.py lines 33-40).  The
adapter contract fixes `TIER` to one of these four strings, and every
plugin under `scraper/plugins/` declares one of them. -/
inductive Tier
  | tier1 | tier2 | tier3 | optional
deriving DecidableEq, Repr

/-- Deduplication loop of `_run_single` (orchestrator.py lines 120-126):
a `seen` set of ids, keeping each item whose id was not seen before, in
order.  The `seen` set is modelled as the list of ids inserted so far
(membership is all that is used). -/
def dedupGo (seen : List String) : List FeedbackItem → List FeedbackItem
  | [] => []
  | item :: rest =>
    if item.id ∈ seen then dedupGo seen rest
    else item :: dedupGo (item.id :: seen) rest

/-- Deduplicate a materialized scrape output by `id`, first occurrence
wins (orchestrator.py lines 120-126). -/
def dedupById (items : List FeedbackItem) : List FeedbackItem := dedupGo [] items

/-- One scheduled source as the orchestrator observes it: its static
identity plus the recorded outcome of each effectful pipeline step.
`validate` is the outcome of `validate_config()` (`error msg` for a
raised exception with message `msg`), `fresh` the value of
`is_fresh(output_path, freshness_hours)`, `scrape` the outcome of
materializing `list(scraper.scrape())`, and `write` the outcome of
`write_output` on this source's own file. -/
structure SourceRun where
  sourceId : String
  tier : Tier
  validate : Except String Unit
  fresh : Bool
  scrape : Except String (List FeedbackItem)
  write : Except String Unit

/-- Mutable result record of one adapter run (orchestrator.py lines
43-50).  `duration_seconds` is wall-clock time, outside the model. -/
structure ScrapeResult where
  source : String
  tier : Tier
  items_scraped : Nat := 0
  skipped : Bool := false
  error : Option String := none
deriving DecidableEq, Repr

/-- Model of `_run_single` (orchestrator.py lines 88-140): validate →
freshness check (unless forced) → dry-run check → scrape → dedup →
write, any raised exception caught at this boundary and converted to an
errored result.  Returns the result together with the list written to
the output store (`none` when nothing was successfully written). -/
def runSingle (s : SourceRun) (force dryRun : Bool) :
    ScrapeResult × Option (List FeedbackItem) :=
  match s.validate with
  | .error msg => ({ source := s.sourceId, tier := s.tier, error := some msg }, none)
  | .ok _ =>
    if !force && s.fresh then
      ({ source := s.sourceId, tier := s.tier, skipped := true }, none)
    else if dryRun then
      ({ source := s.sourceId, tier := s.tier, skipped := true }, none)
    else
      match s.scrape with
      | .error msg => ({ source := s.sourceId, tier := s.tier, error := some msg }, none)
      | .ok items =>
        let unique := dedupById items
        match s.write with
        | .error msg => ({ source := s.sourceId, tier := s.tier, error := some msg }, none)
        | .ok _ =>
          ({ source := s.sourceId, tier := s.tier, items_scraped := unique.length },
            some unique)

/-! ### Run-level scheduling (orchestrator.py `run_scrapers`) -/

/-- Whether a source id survives the request filter (orchestrator.py
lines 159-166): when `source_ids` is `None` or empty (Python falsy), all
registered sources are candidates; otherwise only the requested ids. -/
def selectedBy (sourceIds : Option (List String)) (sid : String) : Bool :=
  match sourceIds with
  | none => true
  | some ids => ids.isEmpty || ids.contains sid

/-- First-occurrence deduplication of the requested id list, as performed
by the dict comprehension on orchestrator.py line 161 (a dict keeps the
first insertion position of a repeated key). -/
def firstDedupGo (seen : List String) : List String → List String
  | [] => []
  | x :: xs => if x ∈ seen then firstDedupGo seen xs else x :: firstDedupGo (x :: seen) xs

/-- Candidate selection (orchestrator.py lines 159-166): requested ids
resolved against the registry, unknown ids dropped; `None` or an empty
request list selects every registered source. -/
def selectCandidates (registry : List SourceRun) (sourceIds : Option (List String)) :
    List SourceRun :=
  match sourceIds with
  | none => registry
  | some ids =>
    if ids.isEmpty then registry
    else (firstDedupGo [] ids).filterMap
      (fun sid => registry.find? (fun s => s.sourceId == sid))

/-- The ToS gate (orchestrator.py lines 174-179): tier2/tier3 sources are
dropped unless `tos_aware` is set. -/
def tosGatePass (t : Tier) (tosAware : Bool) : Bool :=
  !((t == Tier.tier2 || t == Tier.tier3) && !tosAware)

/-- The enablement filter and ToS gate applied to the candidates
(orchestrator.py lines 168-180), producing the sources that are actually
scheduled. -/
def scheduledSources (registry : List SourceRun) (sourceIds : Option (List String))
    (enabledCfg : String → Bool) (tosAware : Bool) : List SourceRun :=
  (selectCandidates registry sourceIds).filter
    (fun s => enabledCfg s.sourceId && tosGatePass s.tier tosAware)

/-- Execution of one tier's sources (orchestrator.py lines 201-253): the
scheduled sources of that tier, each run through `_run_single`, one
result per source.  Parallel tiers append results in completion order;
modelled in scheduling order (see the header comment). -/
def runTier (scheduled : List SourceRun) (force dryRun : Bool) (t : Tier) :
    List ScrapeResult :=
  (scheduled.filter (fun s => s.tier == t)).map (fun s => (runSingle s force dryRun).1)

/-- Model of `run_scrapers` (orchestrator.py lines 143-255): selection,
enablement filter, ToS gate, then the four tiers in the fixed order
tier1 → tier2 → tier3 → optional.  Adapter instantiation (`cls(config)`,
lines 211-222, which for contract-conforming adapters only stores the
config and builds a rate limiter) is assumed to succeed. -/
def run_scrapers (registry : List SourceRun) (sourceIds : Option (List String))
    (enabledCfg : String → Bool) (force dryRun tosAware : Bool) : List ScrapeResult :=
  let scheduled := scheduledSources registry sourceIds enabledCfg tosAware
  runTier scheduled force dryRun Tier.tier1 ++ runTier scheduled force dryRun Tier.tier2 ++
    runTier scheduled force dryRun Tier.tier3 ++ runTier scheduled force dryRun Tier.optional

/-! ### Merged configuration (base.py `ScraperConfig.from_raw`) -/

/-- Python values as they occur in the configuration mapping. -/
inductive PyVal
  | none
  | int (i : Int)
  | num (q : ℚ)
  | str (s : String)
  | bool (b : Bool)
deriving DecidableEq, Repr

/-- A Python dict with string keys, as an insertion-ordered association
list (keys unique; lookup takes the first match). -/
def PyDict := List (String × PyVal)

/-- Python `d.get(k)` / `k in d`: the stored value, if the key is
present. -/
def dictGet? (d : PyDict) (k : String) : Option PyVal :=
  (d.find? (fun kv => kv.1 == k)).map (fun kv => kv.2)

/-- Python `d.get(k, dflt)`. -/
def dictGetD (d : PyDict) (k : String) (dflt : PyVal) : PyVal :=
  (dictGet? d k).getD dflt

/-- The merged configuration dataclass (base.py lines 21-34).  The three
defaulted numeric fields hold whatever value the resolution chain
produced (Python performs no type coercion here). -/
structure ScraperConfig where
  product_name : String
  product_slug : String
  source_params : PyDict
  output_dir : PyVal
  max_items : PyVal
  freshness_hours : PyVal
  rate_limit_delay : PyVal
  rate_limit_jitter : PyVal
  debug : PyVal
  env : List (String × String)

/-- Model of `ScraperConfig.from_raw` (base.py lines 36-62): each of
`max_items`, `freshness_hours`, `rate_limit_delay` resolves as
`source_params.get(key, global_cfg.get(default_key, fallback))`. -/
def ScraperConfig.from_raw (product_name product_slug : String)
    (source_params global_cfg : PyDict) (env : List (String × String)) : ScraperConfig :=
  { product_name := product_name
    product_slug := product_slug
    source_params := source_params
    output_dir := dictGetD global_cfg "output_dir" (PyVal.str "output")
    max_items := dictGetD source_params "max_items"
      (dictGetD global_cfg "default_max_items" (PyVal.int 200))
    freshness_hours := dictGetD source_params "freshness_hours"
      (dictGetD global_cfg "default_freshness_hours" (PyVal.num 24))
    rate_limit_delay := dictGetD source_params "rate_limit_delay"
      (dictGetD global_cfg "default_rate_limit_delay" (PyVal.num 1))
    rate_limit_jitter := PyVal.num (3 / 10)
    debug := dictGetD global_cfg "debug" (PyVal.bool false)
    env := env }

/-! ### Date normalization (utils/date_parser.py) -/

/-- Gregorian leap year. -/
def isLeapYear (y : Int) : Bool := (y % 4 == 0 && y % 100 != 0) || y % 400 == 0

/-- Days in a month of the proleptic Gregorian calendar. -/
def daysInMonth (y : Int) (m : Nat) : Nat :=
  if m == 2 then (if isLeapYear y then 29 else 28)
  else if m == 4 || m == 6 || m == 9 || m == 11 then 30
  else 31

/-- Civil date from a count of days since 1970-01-01 (the standard
days-to-civil conversion used by every calendar library, including the
one underlying `datetime.fromtimestamp`).  Returns `(year, month, day)`. -/
def civilFromDays (z0 : Int) : Int × Nat × Nat :=
  let z : Int := z0 + 719468
  let era : Int := Int.fdiv z 146097
  let doe : Nat := (z - era * 146097).toNat
  let yoe : Nat := (doe - doe / 1460 + doe / 36524 - doe / 146096) / 365
  let y : Int := era * 400 + yoe
  let doy : Nat := doe - (365 * yoe + yoe / 4 - yoe / 100)
  let mp : Nat := (5 * doy + 2) / 153
  let d : Nat := doy - (153 * mp + 2) / 5 + 1
  let m : Nat := if mp < 10 then mp + 3 else mp - 9
  if m ≤ 2 then (y + 1, m, d) else (y, m, d)

/-- Model of `datetime.fromtimestamp(ts, tz=utc)` restricted to the
calendar date: floor the timestamp to a day count and convert.  CPython
raises (`OSError`/`OverflowError`/`ValueError`) outside the supported
`datetime` year range 1..9999, which `normalize_date` turns into `None`. -/
def fromtimestampDate (ts : ℚ) : Option (Int × Nat × Nat) :=
  let c := civilFromDays ⌊ts / 86400⌋
  if 1 ≤ c.1 ∧ c.1 ≤ 9999 then some c else none

/-- Left-pad a number with zeros.  (`strftime("%Y-%m-%d")` zero-pads
month and day; for years below 1000 the padding of `%Y` is
platform-dependent — no theorem below depends on such years.) -/
def padNum (width n : Nat) : String :=
  let s := toString n
  if s.length < width then String.mk (List.replicate (width - s.length) '0') ++ s else s

/-- Rendering of `strftime("%Y-%m-%d")` on a civil date. -/
def strftimeYMD (c : Int × Nat × Nat) : String :=
  padNum 4 c.1.toNat ++ "-" ++ padNum 2 c.2.1 ++ "-" ++ padNum 2 c.2.2

/-- The numeric-timestamp handling shared by the int/float branch (lines
39-46) and the numeric-string branch (lines 53-60): divide by 1000 when
the value exceeds 1e10 (milliseconds), then `fromtimestamp` + strftime. -/
def tsToDateString (ts0 : ℚ) : Option String :=
  let ts := if ts0 > 10000000000 then ts0 / 1000 else ts0
  (fromtimestampDate ts).map strftimeYMD

/-- Matcher for `re.fullmatch(r"\d{9,13}", value)` (line 53): 9 to 13 digits.
Python's `\d` also admits non-ASCII decimal digits; ASCII is modelled,
which is what every input in this repository contains. -/
def isTimestampDigits (l : List Char) : Bool :=
  decide (9 ≤ l.length) && decide (l.length ≤ 13) && l.all Char.isDigit

/-- Matcher for `re.fullmatch(r"\d{4}-\d{2}-\d{2}", value)` (line 63). -/
def isDatePattern (l : List Char) : Bool :=
  match l with
  | [y1, y2, y3, y4, s1, m1, m2, s2, d1, d2] =>
    y1.isDigit && y2.isDigit && y3.isDigit && y4.isDigit && s1 == '-' &&
      m1.isDigit && m2.isDigit && s2 == '-' && d1.isDigit && d2.isDigit
  | _ => false

/-- Decimal digits to a number (`float(value)` on a digit-run string,
which is exact for these magnitudes). -/
def digitsToNat (l : List Char) : Nat :=
  l.foldl (fun acc c => acc * 10 + (c.toNat - Char.toNat '0')) 0

/-- Input domain of `normalize_date`: `None`, `str`, `int` or `float`. -/
inductive DateInput
  | none
  | str (s : String)
  | int (i : Int)
  | num (q : ℚ)

/-- Model of `normalize_date` (date_parser.py lines 27-81).  The
`fallback` parameter models the tail of the function (lines 66-79): the
`_FORMATS` strptime loop followed by the optional `dateutil` fuzzy parse
— the latter depends on whether `dateutil` is installed, so the model
quantifies over the whole tail's behaviour.  Every branch before it is
translated directly: `None` → `None`; int/float → timestamp conversion;
strings are stripped, the empty string → `None`, a 9-13 digit run →
timestamp conversion, and a string already matching
`\d{4}-\d{2}-\d{2}` is returned as-is (line 64) with no calendar
validation. -/
def normalize_date (fallback : String → Option String) : DateInput → Option String
  | DateInput.none => none
  | DateInput.int i => tsToDateString ((i : ℚ))
  | DateInput.num q => tsToDateString q
  | DateInput.str s0 =>
    let s := pyStrip s0
    if s.isEmpty then none
    else if isTimestampDigits s.data then
      tsToDateString ((digitsToNat s.data : Int) : ℚ)
    else if isDatePattern s.data then some s
    else fallback s

/-- Formalization of the specification's words "a string in canonical
`YYYY-MM-DD` form denoting a valid calendar date": ten characters
`\d{4}-\d{2}-\d{2}` whose month lies in 1..12 and whose day lies in the
month's length. -/
def validCalendarString (s : String) : Bool :=
  match s.data with
  | [y1, y2, y3, y4, s1, m1, m2, s2, d1, d2] =>
    y1.isDigit && y2.isDigit && y3.isDigit && y4.isDigit && s1 == '-' &&
      m1.isDigit && m2.isDigit && s2 == '-' && d1.isDigit && d2.isDigit &&
      (let y : Int := (digitsToNat [y1, y2, y3, y4] : Int)
       let m : Nat := digitsToNat [m1, m2]
       let d : Nat := digitsToNat [d1, d2]
       decide (1 ≤ m) && decide (m ≤ 12) && decide (1 ≤ d) && decide (d ≤ daysInMonth y m))
  | _ => false

/-! ## Theorems -/

/-! ### String lemmas -/

theorem string_ext {s t : String} (h : s.data = t.data) : s = t := by
  cases s; cases t; exact congrArg String.mk h

theorem string_data_append (s t : String) : (s ++ t).data = s.data ++ t.data := by
  cases s; cases t; rfl

/-- Appending after a fixed prefix is injective on strings. -/
theorem append_left_inj (p : String) {a b : String} (h : p ++ a = p ++ b) : a = b := by
  have hd : p.data ++ a.data = p.data ++ b.data := by
    have hc := congrArg String.data h
    simpa [string_data_append] using hc
  exact string_ext (List.append_cancel_left hd)

/-- Appending a fixed suffix is injective on strings. -/
theorem append_right_inj (p : String) {a b : String} (h : a ++ p = b ++ p) : a = b := by
  have hd : a.data ++ p.data = b.data ++ p.data := by
    have hc := congrArg String.data h
    simpa [string_data_append] using hc
  exact string_ext (List.append_cancel_right hd)

/-- Two truthy optional strings with equal payloads are equal. -/
theorem truthy_getD_inj {u v : Option String} (hu : pyTruthy u = true)
    (hv : pyTruthy v = true) (h : u.getD "" = v.getD "") : u = v := by
  cases u with
  | none => simp [pyTruthy] at hu
  | some su =>
    cases v with
    | none => simp [pyTruthy] at hv
    | some sv => simpa using h

/-- The key taken when the url is truthy (schema.py line 51). -/
theorem feedbackKey_of_url {url : Option String} (h : pyTruthy url = true)
    (source : String) (author : Option String) (body : String) :
    feedbackKey source url author body = source ++ "::" ++ url.getD "" := by
  unfold feedbackKey
  rw [if_pos h]

/-- The key taken when the url is falsy and the author truthy
(schema.py line 53). -/
theorem feedbackKey_of_author {url author : Option String} (hu : pyTruthy url = false)
    (ha : pyTruthy author = true) (source body : String) :
    feedbackKey source url author body
      = source ++ "::" ++ author.getD "" ++ "::" ++ pyTake 100 body := by
  unfold feedbackKey
  rw [if_neg (by simp [hu]), if_pos ha]

/-- The key taken when both url and author are falsy (schema.py line 55). -/
theorem feedbackKey_of_neither {url author : Option String} (hu : pyTruthy url = false)
    (ha : pyTruthy author = false) (source body : String) :
    feedbackKey source url author body = source ++ "::" ++ pyTake 200 body := by
  unfold feedbackKey
  rw [if_neg (by simp [hu]), if_neg (by simp [ha])]

/-! ### Claim C5 -/

/-- C5: for a fixed `(source, url, author, body)` tuple,
`make_feedback_id` returns the same id on every call; with a present
(truthy) url, different urls give different ids; with url absent and
author present, different authors give different ids; with both absent,
the id is a function of `(source, body)` alone.  The SHA-256 primitive
`makeId` is abstract; the two distinctness parts hold under its
collision-resistance, stated as injectivity. -/
theorem claim_C5_fingerprint_determinism (makeId : String → String)
    (hinj : Function.Injective makeId) :
    (∀ source url author body,
      make_feedback_id makeId source url author body
        = make_feedback_id makeId source url author body) ∧
    (∀ source author body u₁ u₂,
      pyTruthy u₁ = true → pyTruthy u₂ = true → u₁ ≠ u₂ →
      make_feedback_id makeId source u₁ author body
        ≠ make_feedback_id makeId source u₂ author body) ∧
    (∀ source url body a₁ a₂,
      pyTruthy url = false → pyTruthy a₁ = true → pyTruthy a₂ = true → a₁ ≠ a₂ →
      make_feedback_id makeId source url a₁ body
        ≠ make_feedback_id makeId source url a₂ body) ∧
    (∀ source u₁ a₁ u₂ a₂ body,
      pyTruthy u₁ = false → pyTruthy a₁ = false →
      pyTruthy u₂ = false → pyTruthy a₂ = false →
      make_feedback_id makeId source u₁ a₁ body
        = make_feedback_id makeId source u₂ a₂ body) := by
  refine ⟨fun _ _ _ _ => rfl, ?_, ?_, ?_⟩
  · intro source author body u₁ u₂ h1 h2 hne heq
    apply hne
    have hkey := hinj heq
    rw [feedbackKey_of_url h1 source author body,
      feedbackKey_of_url h2 source author body] at hkey
    exact truthy_getD_inj h1 h2 (append_left_inj (source ++ "::") hkey)
  · intro source url body a₁ a₂ hu h1 h2 hne heq
    apply hne
    have hkey := hinj heq
    rw [feedbackKey_of_author hu h1 source body,
      feedbackKey_of_author hu h2 source body] at hkey
    have h3 := append_right_inj (pyTake 100 body) hkey
    have h4 := append_right_inj "::" h3
    exact truthy_getD_inj h1 h2 (append_left_inj (source ++ "::") h4)
  · intro source u₁ a₁ u₂ a₂ body hu1 ha1 hu2 ha2
    unfold make_feedback_id
    rw [feedbackKey_of_neither hu1 ha1 source body,
      feedbackKey_of_neither hu2 ha2 source body]

/-- Witness for C5 at concrete inputs, with the identity function as the
(injective) hash. -/
theorem claim_C5_fingerprint_determinism_witness :
    make_feedback_id (fun s => s) "play_store" (some "http://a/1") (some "user") "body"
      ≠ make_feedback_id (fun s => s) "play_store" (some "http://a/2") (some "user") "body"
    ∧ make_feedback_id (fun s => s) "reddit" none (some "user1") "some body"
        ≠ make_feedback_id (fun s => s) "reddit" none (some "user2") "some body"
    ∧ make_feedback_id (fun s => s) "hn" none none "text"
        = make_feedback_id (fun s => s) "hn" (some "") (some "") "text" := by
  refine ⟨?_, ?_, ?_⟩
  · exact (claim_C5_fingerprint_determinism (fun s => s) (fun _ _ h => h)).2.1
      "play_store" (some "user") "body" (some "http://a/1") (some "http://a/2")
      (by decide) (by decide) (by decide)
  · exact (claim_C5_fingerprint_determinism (fun s => s) (fun _ _ h => h)).2.2.1
      "reddit" none "some body" (some "user1") (some "user2")
      (by decide) (by decide) (by decide) (by decide)
  · exact (claim_C5_fingerprint_determinism (fun s => s) (fun _ _ h => h)).2.2.2
      "hn" none none (some "") (some "") "text"
      (by decide) (by decide) (by decide) (by decide)

/-! ### Claim C10 -/

/-- C10: with url absent and author present, the id depends only on the
first 100 codepoints of the body; with both absent, only on the first
200; and two records carrying the same id collapse to the first under
the orchestrator's deduplication.  No hash assumption is needed: equal
key strings hash equally. -/
theorem claim_C10_body_prefix_truncation (makeId : String → String) :
    (∀ source url author b₁ b₂,
      pyTruthy url = false → pyTruthy author = true →
      b₁.data.take 100 = b₂.data.take 100 →
      make_feedback_id makeId source url author b₁
        = make_feedback_id makeId source url author b₂) ∧
    (∀ source url author b₁ b₂,
      pyTruthy url = false → pyTruthy author = false →
      b₁.data.take 200 = b₂.data.take 200 →
      make_feedback_id makeId source url author b₁
        = make_feedback_id makeId source url author b₂) ∧
    (∀ i₁ i₂ : FeedbackItem, i₁.id = i₂.id → dedupById [i₁, i₂] = [i₁]) := by
  refine ⟨?_, ?_, ?_⟩
  · intro source url author b₁ b₂ hu ha hb
    unfold make_feedback_id
    rw [feedbackKey_of_author hu ha source b₁, feedbackKey_of_author hu ha source b₂]
    have hp : pyTake 100 b₁ = pyTake 100 b₂ := congrArg String.mk hb
    rw [hp]
  · intro source url author b₁ b₂ hu ha hb
    unfold make_feedback_id
    rw [feedbackKey_of_neither hu ha source b₁, feedbackKey_of_neither hu ha source b₂]
    have hp : pyTake 200 b₁ = pyTake 200 b₂ := congrArg String.mk hb
    rw [hp]
  · intro i₁ i₂ h
    simp [dedupById, dedupGo, h]

/-- Witness for C10: bodies agreeing on their first 100 (resp. 200)
codepoints but differing beyond, and the dedup collapse at two concrete
records. -/
theorem claim_C10_body_prefix_truncation_witness :
    make_feedback_id (fun s => s) "g2" none (some "alice")
        (String.mk (List.replicate 100 'x') ++ "tail-one")
      = make_feedback_id (fun s => s) "g2" none (some "alice")
        (String.mk (List.replicate 100 'x') ++ "tail-two")
    ∧ dedupById
        [{ id := "k", source := "s", product := "p", body := "b1" },
         { id := "k", source := "s", product := "p", body := "b2" }]
      = [{ id := "k", source := "s", product := "p", body := "b1" }] := by
  constructor
  · exact (claim_C10_body_prefix_truncation (fun s => s)).1 "g2" none (some "alice")
      (String.mk (List.replicate 100 'x') ++ "tail-one")
      (String.mk (List.replicate 100 'x') ++ "tail-two")
      (by decide) (by decide) (by decide)
  · exact (claim_C10_body_prefix_truncation (fun s => s)).2.2
      { id := "k", source := "s", product := "p", body := "b1" }
      { id := "k", source := "s", product := "p", body := "b2" } rfl

/-! ### FeedbackItem construction lemmas -/

/-- Closed form of `FeedbackItem.make`: fail on an empty or
whitespace-only body, otherwise produce the validated record. -/
theorem make_eq (x : FeedbackInput) :
    FeedbackItem.make x =
      if x.body.isEmpty || (pyStrip x.body).isEmpty then
        Except.error "body must not be empty"
      else Except.ok (validatedItem x) := by
  unfold FeedbackItem.make body_must_not_be_empty validatedItem
  by_cases h : (x.body.isEmpty || (pyStrip x.body).isEmpty) = true
  · simp only [if_pos h]
  · simp only [if_neg h]

/-- If every character left of the first non-whitespace position is
whitespace and all remaining characters are whitespace, the whole list
is whitespace. -/
theorem all_of_dropWhile_all {l : List Char}
    (h : ∀ x ∈ l.dropWhile pyWS, pyWS x = true) : ∀ x ∈ l, pyWS x = true := by
  induction l with
  | nil => intro x hx; cases hx
  | cons c cs ih =>
    intro x hx
    by_cases hc : pyWS c = true
    · rw [List.dropWhile_cons, if_pos hc] at h
      rcases List.mem_cons.mp hx with rfl | hxs
      · exact hc
      · exact ih h x hxs
    · rw [List.dropWhile_cons, if_neg hc] at h
      exact h x hx

/-- Stripping yields the empty list exactly when every character is
whitespace (in particular on the empty list). -/
theorem pyStripList_eq_nil_iff (l : List Char) :
    pyStripList l = [] ↔ (∀ x ∈ l, pyWS x = true) := by
  unfold pyStripList
  constructor
  · intro h
    have h1 : (l.dropWhile pyWS).reverse.dropWhile pyWS = [] := by
      have h2 := congrArg List.reverse h
      simpa using h2
    have h3 := List.dropWhile_eq_nil_iff.mp h1
    exact all_of_dropWhile_all (fun x hx => h3 x (List.mem_reverse.mpr hx))
  · intro h
    have h1 : l.dropWhile pyWS = [] :=
      List.dropWhile_eq_nil_iff.mpr (fun x hx => h x hx)
    rw [h1]
    rfl

/-- String form of `pyStripList_eq_nil_iff`. -/
theorem pyStrip_eq_empty_iff (s : String) :
    pyStrip s = "" ↔ s.data.all pyWS = true := by
  rw [List.all_eq_true]
  constructor
  · intro h
    exact (pyStripList_eq_nil_iff s.data).mp (congrArg String.data h)
  · intro h
    exact string_ext ((pyStripList_eq_nil_iff s.data).mpr h)

/-! ### Claim C8 -/

/-- C8: a rating of `10.0` is stored as `5.0`, `-1.0` as `0.0`, `None`
as `None`, and every present stored rating lies in `[0.0, 5.0]`. -/
theorem claim_C8_rating_clamping (x : FeedbackInput) (item : FeedbackItem)
    (hmk : FeedbackItem.make x = Except.ok item) :
    (x.rating = some 10 → item.rating = some 5) ∧
    (x.rating = some (-1) → item.rating = some 0) ∧
    (x.rating = none → item.rating = none) ∧
    (∀ r, item.rating = some r → 0 ≤ r ∧ r ≤ 5) := by
  rw [make_eq] at hmk
  by_cases h : (x.body.isEmpty || (pyStrip x.body).isEmpty) = true
  · rw [if_pos h] at hmk
    cases hmk
  · rw [if_neg h] at hmk
    have hitem : item = validatedItem x := by
      cases hmk
      rfl
    subst hitem
    refine ⟨?_, ?_, ?_, ?_⟩
    · intro hr
      norm_num [validatedItem, clamp_rating, hr]
    · intro hr
      norm_num [validatedItem, clamp_rating, hr]
    · intro hr
      simp [validatedItem, clamp_rating, hr]
    · intro r hr
      cases hx : x.rating with
      | none => simp [validatedItem, clamp_rating, hx] at hr
      | some v =>
        simp [validatedItem, clamp_rating, hx] at hr
        constructor
        · rw [← hr]
          exact le_max_left 0 _
        · rw [← hr]
          exact max_le (by norm_num) (min_le_left 5 v)

/-- Witness for C8 at a concrete construction with rating 10. -/
theorem claim_C8_rating_clamping_witness :
    FeedbackItem.make { id := "i", source := "s", product := "p", body := "good", rating := some 10 }
      = Except.ok { id := "i", source := "s", product := "p", body := "good", rating := some 5 }
    ∧ ({ id := "i", source := "s", product := "p", body := "good", rating := some 5 } : FeedbackItem).rating
        = some 5 := by
  have hmk : FeedbackItem.make { id := "i", source := "s", product := "p", body := "good", rating := some 10 }
      = Except.ok { id := "i", source := "s", product := "p", body := "good", rating := some 5 } := by
    rw [make_eq, if_neg (by decide)]
    exact congrArg Except.ok (by decide)
  exact ⟨hmk, (claim_C8_rating_clamping _ _ hmk).1 rfl⟩

/-! ### Claim C9 -/

/-- C9: construction fails exactly for bodies that are empty or all
whitespace; otherwise it succeeds, the stored body is the input stripped
of leading and trailing whitespace, and the stored body is non-empty. -/
theorem claim_C9_nonempty_body (x : FeedbackInput) :
    (x.body.data.all pyWS = true →
      FeedbackItem.make x = Except.error "body must not be empty") ∧
    (x.body.data.all pyWS = false →
      FeedbackItem.make x = Except.ok (validatedItem x) ∧
      (validatedItem x).body = pyStrip x.body ∧ (validatedItem x).body ≠ "") := by
  rw [make_eq]
  constructor
  · intro h
    have hps : pyStrip x.body = "" := (pyStrip_eq_empty_iff _).mpr h
    rw [if_pos]
    rw [hps]
    simp [String.isEmpty_iff]
  · intro h
    have hps : pyStrip x.body ≠ "" := by
      intro hc
      rw [(pyStrip_eq_empty_iff _).mp hc] at h
      cases h
    have hb : x.body ≠ "" := by
      intro hc
      rw [hc] at h
      cases h
    rw [if_neg]
    · exact ⟨rfl, rfl, hps⟩
    · simp [String.isEmpty_iff, hps, hb]

/-- Witness for C9: the whitespace-only body `"   "` fails construction;
the body `"  padded  "` succeeds and is stored as `"padded"`. -/
theorem claim_C9_nonempty_body_witness :
    FeedbackItem.make { id := "i", source := "s", product := "p", body := "   " }
      = Except.error "body must not be empty"
    ∧ FeedbackItem.make { id := "i", source := "s", product := "p", body := "  padded  " }
        = Except.ok (validatedItem
            { id := "i", source := "s", product := "p", body := "  padded  " })
    ∧ (validatedItem { id := "i", source := "s", product := "p", body := "  padded  " }).body
        = "padded" := by
  refine ⟨?_, ?_, ?_⟩
  · exact (claim_C9_nonempty_body
      { id := "i", source := "s", product := "p", body := "   " }).1 (by decide)
  · exact ((claim_C9_nonempty_body
      { id := "i", source := "s", product := "p", body := "  padded  " }).2 (by decide)).1
  · decide

/-! ### Deduplication lemmas -/

/-- The dedup loop only ever drops items: its output is a sublist of its
input, so relative order (in particular first-occurrence order) is
preserved. -/
theorem dedupGo_sublist (seen : List String) (l : List FeedbackItem) :
    List.Sublist (dedupGo seen l) l := by
  induction l generalizing seen with
  | nil => exact List.Sublist.refl []
  | cons i rest ih =>
    unfold dedupGo
    by_cases h : i.id ∈ seen
    · rw [if_pos h]
      exact (ih seen).cons i
    · rw [if_neg h]
      exact (ih (i.id :: seen)).cons₂ i

/-- Items whose ids were all already seen are all dropped. -/
theorem dedupGo_eq_nil {seen : List String} {l : List FeedbackItem}
    (h : ∀ i ∈ l, i.id ∈ seen) : dedupGo seen l = [] := by
  induction l with
  | nil => rfl
  | cons i rest ih =>
    unfold dedupGo
    rw [if_pos (h i (List.mem_cons_self i rest))]
    exact ih (fun j hj => h j (List.mem_cons_of_mem i hj))

/-- When no id repeats (among the items or against the seen set), the
loop keeps everything. -/
theorem dedupGo_of_nodup {seen : List String} {l : List FeedbackItem}
    (hseen : ∀ i ∈ l, i.id ∉ seen) (hl : (l.map FeedbackItem.id).Nodup) :
    dedupGo seen l = l := by
  induction l generalizing seen with
  | nil => rfl
  | cons i rest ih =>
    unfold dedupGo
    rw [if_neg (hseen i (List.mem_cons_self i rest))]
    rw [List.map_cons, List.nodup_cons] at hl
    have hrest : ∀ j ∈ rest, j.id ∉ i.id :: seen := by
      intro j hj hmem
      rcases List.mem_cons.mp hmem with hji | hjs
      · exact hl.1 (hji ▸ List.mem_map_of_mem FeedbackItem.id hj)
      · exact hseen j (List.mem_cons_of_mem i hj) hjs
    rw [ih hrest hl.2]

/-- Every item kept by the loop has an id outside the seen set. -/
theorem dedupGo_mem_id (seen : List String) (l : List FeedbackItem) :
    ∀ i ∈ dedupGo seen l, i.id ∉ seen := by
  induction l generalizing seen with
  | nil => intro i hi; cases hi
  | cons j rest ih =>
    unfold dedupGo
    by_cases h : j.id ∈ seen
    · rw [if_pos h]
      exact ih seen
    · rw [if_neg h]
      intro i hi
      rcases List.mem_cons.mp hi with rfl | hirest
      · exact h
      · intro hmem
        exact ih (j.id :: seen) i hirest (List.mem_cons_of_mem j.id hmem)

/-- The ids surviving the loop are pairwise distinct. -/
theorem dedupGo_ids_nodup (seen : List String) (l : List FeedbackItem) :
    ((dedupGo seen l).map FeedbackItem.id).Nodup := by
  induction l generalizing seen with
  | nil => exact List.nodup_nil
  | cons j rest ih =>
    unfold dedupGo
    by_cases h : j.id ∈ seen
    · rw [if_pos h]
      exact ih seen
    · rw [if_neg h]
      rw [List.map_cons, List.nodup_cons]
      refine ⟨?_, ih (j.id :: seen)⟩
      intro hmem
      rcases List.mem_map.mp hmem with ⟨i, hi, hii⟩
      exact dedupGo_mem_id (j.id :: seen) rest i hi (hii ▸ List.mem_cons_self j.id seen)

/-- Every input id outside the seen set is represented in the output. -/
theorem dedupGo_id_covered (seen : List String) (l : List FeedbackItem) :
    ∀ i ∈ l, i.id ∉ seen → i.id ∈ (dedupGo seen l).map FeedbackItem.id := by
  induction l generalizing seen with
  | nil => intro i hi; cases hi
  | cons j rest ih =>
    intro i hi hs
    unfold dedupGo
    by_cases h : j.id ∈ seen
    · rw [if_pos h]
      rcases List.mem_cons.mp hi with rfl | hirest
      · exact absurd h hs
      · exact ih seen i hirest hs
    · rw [if_neg h]
      rw [List.map_cons]
      by_cases hij : i.id = j.id
      · exact hij ▸ List.mem_cons_self i.id _
      · rcases List.mem_cons.mp hi with rfl | hirest
        · exact absurd rfl hij
        · refine List.mem_cons_of_mem j.id (ih (j.id :: seen) i hirest ?_)
          intro hmem
          rcases List.mem_cons.mp hmem with hc | hc
          · exact hij hc
          · exact hs hc

/-! ### Claim C1 -/

/-- C1: on the happy path of `_run_single` (validation passes, the
freshness/dry-run skips do not fire, scrape and write succeed) the list
handed to `write_output` is exactly the scraped sequence deduplicated by
id: one record per distinct id, in first-occurrence order (a sublist of
the input with pairwise distinct ids covering every input id); among N
records sharing one id exactly the first survives, and N records with
pairwise distinct ids all survive. -/
theorem claim_C1_dedup_pipeline (s : SourceRun) (force dryRun : Bool)
    (items : List FeedbackItem)
    (hv : s.validate = Except.ok ()) (hns : (!force && s.fresh) = false)
    (hdr : dryRun = false) (hsc : s.scrape = Except.ok items)
    (hw : s.write = Except.ok ()) :
    (runSingle s force dryRun).2 = some (dedupById items) ∧
    (runSingle s force dryRun).1.items_scraped = (dedupById items).length ∧
    List.Sublist (dedupById items) items ∧
    ((dedupById items).map FeedbackItem.id).Nodup ∧
    (∀ i ∈ items, i.id ∈ (dedupById items).map FeedbackItem.id) ∧
    (∀ first rest, items = first :: rest → (∀ i ∈ items, i.id = first.id) →
      dedupById items = [first]) ∧
    ((items.map FeedbackItem.id).Nodup → dedupById items = items) := by
  have hrun : runSingle s force dryRun =
      ({ source := s.sourceId, tier := s.tier,
         items_scraped := (dedupById items).length }, some (dedupById items)) := by
    unfold runSingle
    rw [hv, hns, hdr, hsc, hw]
    rfl
  refine ⟨by rw [hrun], by rw [hrun], dedupGo_sublist [] items,
    dedupGo_ids_nodup [] items,
    fun i hi => dedupGo_id_covered [] items i hi (List.not_mem_nil i.id), ?_, ?_⟩
  · intro first rest hitems hsame
    subst hitems
    unfold dedupById dedupGo
    rw [if_neg (List.not_mem_nil first.id)]
    rw [dedupGo_eq_nil]
    intro j hj
    rw [hsame j (List.mem_cons_of_mem first hj)]
    exact List.mem_cons_self first.id []
  · intro hnd
    exact dedupGo_of_nodup (fun i _ => List.not_mem_nil i.id) hnd

/-- Witness for C1: a concrete run with three scraped records, two of
which share an id, writes exactly the first of the duplicates plus the
distinct record, in order. -/
theorem claim_C1_dedup_pipeline_witness :
    (runSingle
      { sourceId := "src", tier := Tier.tier1, validate := Except.ok (), fresh := false,
        scrape := Except.ok
          [{ id := "x", source := "src", product := "p", body := "first" },
           { id := "x", source := "src", product := "p", body := "second" },
           { id := "y", source := "src", product := "p", body := "third" }],
        write := Except.ok () } true false).2
      = some (dedupById
          [{ id := "x", source := "src", product := "p", body := "first" },
           { id := "x", source := "src", product := "p", body := "second" },
           { id := "y", source := "src", product := "p", body := "third" }])
    ∧ dedupById
          [{ id := "x", source := "src", product := "p", body := "first" },
           { id := "x", source := "src", product := "p", body := "second" },
           { id := "y", source := "src", product := "p", body := "third" }]
        = [{ id := "x", source := "src", product := "p", body := "first" },
           { id := "y", source := "src", product := "p", body := "third" }] := by
  constructor
  · exact (claim_C1_dedup_pipeline _ true false _ rfl rfl rfl rfl rfl).1
  · decide

/-! ### Claim C4 -/

/-- C4: every result of the per-source run satisfies the `ScrapeResult`
invariant: the skipped flag and an error message are never both set, a
skipped or errored result has item count 0, and exactly one of
{normal completion, skipped, errored} holds. -/
theorem claim_C4_result_invariant (s : SourceRun) (force dryRun : Bool) :
    (¬ ((runSingle s force dryRun).1.skipped = true ∧
        (runSingle s force dryRun).1.error ≠ none)) ∧
    ((runSingle s force dryRun).1.skipped = true →
      (runSingle s force dryRun).1.items_scraped = 0) ∧
    ((runSingle s force dryRun).1.error ≠ none →
      (runSingle s force dryRun).1.items_scraped = 0) ∧
    (((runSingle s force dryRun).1.skipped = false ∧
        (runSingle s force dryRun).1.error = none) ∨
      ((runSingle s force dryRun).1.skipped = true ∧
        (runSingle s force dryRun).1.error = none) ∨
      ((runSingle s force dryRun).1.skipped = false ∧
        (runSingle s force dryRun).1.error ≠ none)) := by
  cases hval : s.validate with
  | error msg => simp [runSingle, hval]
  | ok u =>
    cases u
    by_cases hf : (!force && s.fresh) = true
    · simp [runSingle, hval, hf]
    · by_cases hd : dryRun = true
      · simp [runSingle, hval, hf, hd]
      · cases hsc : s.scrape with
        | error msg => simp [runSingle, hval, hf, hd, hsc]
        | ok items =>
          cases hw : s.write with
          | error msg => simp [runSingle, hval, hf, hd, hsc, hw]
          | ok u2 =>
            cases u2
            simp [runSingle, hval, hf, hd, hsc, hw]

/-! ### run_scrapers counting lemmas -/

/-- Every result of `_run_single` carries the source id of the scraper
it ran (orchestrator.py line 97). -/
theorem runSingle_source (s : SourceRun) (force dryRun : Bool) :
    (runSingle s force dryRun).1.source = s.sourceId := by
  unfold runSingle
  cases s.validate with
  | error msg => rfl
  | ok u =>
    by_cases hf : (!force && s.fresh) = true
    · rw [if_pos hf]
    · rw [if_neg hf]
      by_cases hd : dryRun = true
      · rw [if_pos hd]
      · rw [if_neg hd]
        cases s.scrape with
        | error msg => rfl
        | ok items =>
          cases s.write with
          | error msg => rfl
          | ok u2 => rfl

/-- Every result of `_run_single` carries its scraper's tier. -/
theorem runSingle_tier (s : SourceRun) (force dryRun : Bool) :
    (runSingle s force dryRun).1.tier = s.tier := by
  unfold runSingle
  cases s.validate with
  | error msg => rfl
  | ok u =>
    by_cases hf : (!force && s.fresh) = true
    · rw [if_pos hf]
    · rw [if_neg hf]
      by_cases hd : dryRun = true
      · rw [if_pos hd]
      · rw [if_neg hd]
        cases s.scrape with
        | error msg => rfl
        | ok items =>
          cases s.write with
          | error msg => rfl
          | ok u2 => rfl

/-- Counting results of one tier by source id counts that tier's
scheduled sources. -/
theorem countP_runTier (l : List SourceRun) (force dryRun : Bool) (t : Tier)
    (target : String) :
    (runTier l force dryRun t).countP (fun r => r.source == target)
      = (l.filter (fun s => s.tier == t)).countP (fun s => s.sourceId == target) := by
  unfold runTier
  rw [List.countP_map]
  refine List.countP_congr ?_
  intro s _
  simp [Function.comp, runSingle_source]

/-- The four tier buckets partition the scheduled list, so the tier loop
runs every scheduled source exactly once. -/
theorem countP_tier_partition (l : List SourceRun) (q : SourceRun → Bool) :
    (l.filter (fun s => s.tier == Tier.tier1)).countP q +
      (l.filter (fun s => s.tier == Tier.tier2)).countP q +
      (l.filter (fun s => s.tier == Tier.tier3)).countP q +
      (l.filter (fun s => s.tier == Tier.optional)).countP q
      = l.countP q := by
  induction l with
  | nil => rfl
  | cons s rest ih =>
    cases ht : s.tier <;> cases hq : q s <;>
      simp [List.filter_cons, List.countP_cons, ht, hq] <;> omega

/-- Counting run results by source id counts the scheduled sources with
that id. -/
theorem countP_run_scrapers (registry : List SourceRun) (sourceIds : Option (List String))
    (enabledCfg : String → Bool) (force dryRun tosAware : Bool) (target : String) :
    (run_scrapers registry sourceIds enabledCfg force dryRun tosAware).countP
        (fun r => r.source == target)
      = (scheduledSources registry sourceIds enabledCfg tosAware).countP
          (fun s => s.sourceId == target) := by
  unfold run_scrapers
  rw [List.countP_append, List.countP_append, List.countP_append,
    countP_runTier, countP_runTier, countP_runTier, countP_runTier]
  exact countP_tier_partition _ _

/-- Membership in the first-occurrence dedup of the request list. -/
theorem mem_firstDedupGo (seen : List String) (l : List String) (x : String) :
    x ∈ firstDedupGo seen l ↔ (x ∈ l ∧ x ∉ seen) := by
  induction l generalizing seen with
  | nil => simp [firstDedupGo]
  | cons a rest ih =>
    unfold firstDedupGo
    by_cases h : a ∈ seen
    · rw [if_pos h, ih seen]
      constructor
      · exact fun hx => ⟨List.mem_cons_of_mem a hx.1, hx.2⟩
      · rintro ⟨hx, hs⟩
        rcases List.mem_cons.mp hx with rfl | hx2
        · exact absurd h hs
        · exact ⟨hx2, hs⟩
    · rw [if_neg h]
      constructor
      · intro hx
        rcases List.mem_cons.mp hx with rfl | hx2
        · exact ⟨List.mem_cons_self x rest, h⟩
        · have h2 := (ih (a :: seen)).mp hx2
          exact ⟨List.mem_cons_of_mem a h2.1,
            fun hs => h2.2 (List.mem_cons_of_mem a hs)⟩
      · rintro ⟨hx, hs⟩
        rcases List.mem_cons.mp hx with rfl | hx2
        · exact List.mem_cons_self x _
        · by_cases hxa : x = a
          · exact hxa ▸ List.mem_cons_self x _
          · exact List.mem_cons_of_mem a ((ih (a :: seen)).mpr
              ⟨hx2, fun hm => (List.mem_cons.mp hm).elim hxa hs⟩)

/-- The first-occurrence dedup of the request list has no duplicates. -/
theorem firstDedupGo_nodup (seen : List String) (l : List String) :
    (firstDedupGo seen l).Nodup := by
  induction l generalizing seen with
  | nil => exact List.nodup_nil
  | cons a rest ih =>
    unfold firstDedupGo
    by_cases h : a ∈ seen
    · rw [if_pos h]
      exact ih seen
    · rw [if_neg h]
      rw [List.nodup_cons]
      refine ⟨?_, ih (a :: seen)⟩
      intro hmem
      exact ((mem_firstDedupGo (a :: seen) rest a).mp hmem).2 (List.mem_cons_self a seen)

/-- In a registry with pairwise distinct ids, a member's id occurs
exactly once. -/
theorem countP_registry_id (registry : List SourceRun)
    (hN : (registry.map SourceRun.sourceId).Nodup)
    (e : SourceRun) (he : e ∈ registry) :
    registry.countP (fun s => s.sourceId == e.sourceId) = 1 := by
  induction registry with
  | nil => cases he
  | cons a rest ih =>
    rw [List.map_cons, List.nodup_cons] at hN
    rw [List.countP_cons]
    rcases List.mem_cons.mp he with rfl | hrest
    · have h0 : rest.countP (fun s => s.sourceId == e.sourceId) = 0 := by
        rw [List.countP_eq_zero]
        intro s hs hps
        have hid : s.sourceId = e.sourceId := by simpa using hps
        exact hN.1 (hid ▸ List.mem_map_of_mem SourceRun.sourceId hs)
      simp [h0]
    · rw [ih hN.2 hrest]
      have hne : (a.sourceId == e.sourceId) = false := by
        rw [beq_eq_false_iff_ne]
        intro hc
        exact hN.1 (hc ▸ List.mem_map_of_mem SourceRun.sourceId hrest)
      simp [hne]

/-- Resolving ids not containing the target contributes no candidate
with the target id. -/
theorem countP_resolve_zero (registry : List SourceRun) (ids : List String)
    (target : String) (hnot : target ∉ ids) :
    (ids.filterMap (fun sid => registry.find? (fun s => s.sourceId == sid))).countP
      (fun s => s.sourceId == target) = 0 := by
  induction ids with
  | nil => rfl
  | cons a rest ih =>
    have hna : target ≠ a := fun hc => hnot (hc ▸ List.mem_cons_self a rest)
    have hrest : target ∉ rest := fun hc => hnot (List.mem_cons_of_mem a hc)
    cases hfa : registry.find? (fun s => s.sourceId == a) with
    | none =>
      simp only [List.filterMap_cons, hfa]
      exact ih hrest
    | some s =>
      simp only [List.filterMap_cons, hfa]
      rw [List.countP_cons, ih hrest]
      have hsa : s.sourceId = a := by simpa using List.find?_some hfa
      have hne : (s.sourceId == target) = false := by
        rw [beq_eq_false_iff_ne, hsa]
        exact fun hc => hna hc.symm
      simp [hne]

/-- Resolving a duplicate-free id list containing the target against a
registry that knows the target yields exactly one candidate with the
target id. -/
theorem countP_resolve_one (registry : List SourceRun) (ids : List String)
    (target : String) (hids : ids.Nodup) (htarget : target ∈ ids)
    (hfind : (registry.find? (fun s => s.sourceId == target)).isSome) :
    (ids.filterMap (fun sid => registry.find? (fun s => s.sourceId == sid))).countP
      (fun s => s.sourceId == target) = 1 := by
  induction ids with
  | nil => cases htarget
  | cons a rest ih =>
    rw [List.nodup_cons] at hids
    rcases List.mem_cons.mp htarget with rfl | hrest
    · obtain ⟨s, hs⟩ := Option.isSome_iff_exists.mp hfind
      simp only [List.filterMap_cons, hs]
      rw [List.countP_cons, countP_resolve_zero registry rest target hids.1]
      have hsa : (s.sourceId == target) = true := by simpa using List.find?_some hs
      simp [hsa]
    · have hna : a ≠ target := fun hc => hids.1 (hc ▸ hrest)
      cases hfa : registry.find? (fun s => s.sourceId == a) with
      | none =>
        simp only [List.filterMap_cons, hfa]
        exact ih hids.2 hrest
      | some s =>
        simp only [List.filterMap_cons, hfa]
        rw [List.countP_cons, ih hids.2 hrest]
        have hsa : s.sourceId = a := by simpa using List.find?_some hfa
        have hne : (s.sourceId == target) = false := by
          rw [beq_eq_false_iff_ne, hsa]
          exact hna
        simp [hne]

/-- Equation: no request selects every registered source. -/
theorem selectCandidates_none (registry : List SourceRun) :
    selectCandidates registry none = registry := rfl

/-- Equation: an empty (falsy) request list selects every registered
source. -/
theorem selectCandidates_some_empty (registry : List SourceRun) {ids : List String}
    (hemp : ids.isEmpty = true) : selectCandidates registry (some ids) = registry := by
  simp only [selectCandidates]
  rw [if_pos hemp]

/-- Equation: a non-empty request list resolves its deduplicated ids
against the registry. -/
theorem selectCandidates_some_ids (registry : List SourceRun) {ids : List String}
    (hemp : ¬ ids.isEmpty = true) :
    selectCandidates registry (some ids)
      = (firstDedupGo [] ids).filterMap
          (fun sid => registry.find? (fun s => s.sourceId == sid)) := by
  simp only [selectCandidates]
  rw [if_neg hemp]

/-- Candidates are drawn from the registry. -/
theorem mem_of_mem_selectCandidates {registry : List SourceRun}
    {sourceIds : Option (List String)} {s : SourceRun}
    (h : s ∈ selectCandidates registry sourceIds) : s ∈ registry := by
  cases sourceIds with
  | none =>
    rw [selectCandidates_none] at h
    exact h
  | some ids =>
    by_cases hemp : ids.isEmpty = true
    · rw [selectCandidates_some_empty registry hemp] at h
      exact h
    · rw [selectCandidates_some_ids registry hemp] at h
      rcases List.mem_filterMap.mp h with ⟨sid, _, hfind⟩
      exact List.mem_of_find?_eq_some hfind

/-- A selected member of a duplicate-free registry appears among the
candidates exactly once. -/
theorem countP_selectCandidates (registry : List SourceRun)
    (sourceIds : Option (List String))
    (hN : (registry.map SourceRun.sourceId).Nodup)
    (e : SourceRun) (he : e ∈ registry)
    (hsel : selectedBy sourceIds e.sourceId = true) :
    (selectCandidates registry sourceIds).countP (fun s => s.sourceId == e.sourceId)
      = 1 := by
  cases sourceIds with
  | none =>
    rw [selectCandidates_none]
    exact countP_registry_id registry hN e he
  | some ids =>
    by_cases hemp : ids.isEmpty = true
    · rw [selectCandidates_some_empty registry hemp]
      exact countP_registry_id registry hN e he
    · rw [selectCandidates_some_ids registry hemp]
      simp only [selectedBy] at hsel
      rw [Bool.or_eq_true] at hsel
      rcases hsel with hsel | hsel
      · exact absurd hsel hemp
      · have hmem : e.sourceId ∈ ids := by simpa using hsel
        have hdmem : e.sourceId ∈ firstDedupGo [] ids :=
          (mem_firstDedupGo [] ids e.sourceId).mpr ⟨hmem, List.not_mem_nil e.sourceId⟩
        have hfind : (registry.find? (fun s => s.sourceId == e.sourceId)).isSome :=
          List.find?_isSome.mpr ⟨e, he, beq_self_eq_true e.sourceId⟩
        exact countP_resolve_one registry (firstDedupGo [] ids) e.sourceId
          (firstDedupGo_nodup [] ids) hdmem hfind

/-- Membership in the scheduled list: a candidate whose enablement and
ToS gate both pass. -/
theorem mem_scheduledSources {registry : List SourceRun}
    {sourceIds : Option (List String)} {enabledCfg : String → Bool} {tosAware : Bool}
    {s : SourceRun} :
    s ∈ scheduledSources registry sourceIds enabledCfg tosAware
      ↔ s ∈ selectCandidates registry sourceIds
          ∧ (enabledCfg s.sourceId && tosGatePass s.tier tosAware) = true := by
  unfold scheduledSources
  exact List.mem_filter

/-- Registry ids are unique, so a candidate sharing a member's id is
that member. -/
theorem eq_of_mem_selectCandidates_id {registry : List SourceRun}
    {sourceIds : Option (List String)}
    (hN : (registry.map SourceRun.sourceId).Nodup)
    {e s : SourceRun} (he : e ∈ registry)
    (hs : s ∈ selectCandidates registry sourceIds) (hid : s.sourceId = e.sourceId) :
    s = e :=
  List.inj_on_of_nodup_map hN (mem_of_mem_selectCandidates hs) he hid

/-- Scheduled occurrences of a selected registry member: one when its
enablement and ToS gate both pass, zero otherwise. -/
theorem countP_scheduledSources (registry : List SourceRun)
    (sourceIds : Option (List String)) (enabledCfg : String → Bool) (tosAware : Bool)
    (hN : (registry.map SourceRun.sourceId).Nodup)
    (e : SourceRun) (he : e ∈ registry)
    (hsel : selectedBy sourceIds e.sourceId = true) :
    (scheduledSources registry sourceIds enabledCfg tosAware).countP
        (fun s => s.sourceId == e.sourceId)
      = if (enabledCfg e.sourceId && tosGatePass e.tier tosAware) = true then 1
        else 0 := by
  unfold scheduledSources
  rw [List.countP_filter]
  by_cases hq : (enabledCfg e.sourceId && tosGatePass e.tier tosAware) = true
  · rw [if_pos hq]
    have hcong : ∀ s ∈ selectCandidates registry sourceIds,
        (((s.sourceId == e.sourceId) &&
            (enabledCfg s.sourceId && tosGatePass s.tier tosAware)) = true)
          ↔ ((s.sourceId == e.sourceId) = true) := by
      intro s hs
      constructor
      · intro h
        exact (Bool.and_eq_true _ _ |>.mp h).1
      · intro h
        have hse : s = e := eq_of_mem_selectCandidates_id hN he hs (eq_of_beq h)
        subst hse
        rw [Bool.and_eq_true]
        exact ⟨h, hq⟩
    rw [List.countP_congr hcong]
    exact countP_selectCandidates registry sourceIds hN e he hsel
  · rw [if_neg hq, List.countP_eq_zero]
    intro s hs hps
    rw [Bool.and_eq_true] at hps
    have hse : s = e := eq_of_mem_selectCandidates_id hN he hs (eq_of_beq hps.1)
    rw [hse] at hps
    exact hq hps.2

/-- Each result of a tier run comes from running one scheduled source. -/
theorem mem_runTier {r : ScrapeResult} {l : List SourceRun} {force dryRun : Bool}
    {t : Tier} (h : r ∈ runTier l force dryRun t) :
    ∃ s ∈ l, r = (runSingle s force dryRun).1 := by
  unfold runTier at h
  rcases List.mem_map.mp h with ⟨s, hs, heq⟩
  exact ⟨s, (List.mem_filter.mp hs).1, heq.symm⟩

/-- Each result of a full run comes from running one scheduled source. -/
theorem mem_run_scrapers {r : ScrapeResult} {registry : List SourceRun}
    {sourceIds : Option (List String)} {enabledCfg : String → Bool}
    {force dryRun tosAware : Bool}
    (h : r ∈ run_scrapers registry sourceIds enabledCfg force dryRun tosAware) :
    ∃ s ∈ scheduledSources registry sourceIds enabledCfg tosAware,
      r = (runSingle s force dryRun).1 := by
  unfold run_scrapers at h
  rcases List.mem_append.mp h with h | h
  · rcases List.mem_append.mp h with h | h
    · rcases List.mem_append.mp h with h | h
      · exact mem_runTier h
      · exact mem_runTier h
    · exact mem_runTier h
  · exact mem_runTier h

/-! ### Claim C2 -/

/-- C2: a selected, enabled, gate-passed source whose `validate_config`
raises with message `msg` yields exactly one result in the run, that
result carries the captured message with no items and no skipped flag,
and every other selected, enabled, gate-passed source (whatever its
tier) still yields exactly one result of its own.  The exception cannot
propagate: `run_scrapers` is a total function into result lists. -/
theorem claim_C2_error_isolation (registry : List SourceRun)
    (sourceIds : Option (List String)) (enabledCfg : String → Bool)
    (force dryRun tosAware : Bool) (e : SourceRun) (msg : String)
    (hN : (registry.map SourceRun.sourceId).Nodup)
    (he : e ∈ registry) (hsel : selectedBy sourceIds e.sourceId = true)
    (hen : enabledCfg e.sourceId = true) (hgate : tosGatePass e.tier tosAware = true)
    (hval : e.validate = Except.error msg) :
    ((run_scrapers registry sourceIds enabledCfg force dryRun tosAware).countP
        (fun r => r.source == e.sourceId) = 1) ∧
    (∀ r ∈ run_scrapers registry sourceIds enabledCfg force dryRun tosAware,
      r.source = e.sourceId →
        r = { source := e.sourceId, tier := e.tier, items_scraped := 0,
              skipped := false, error := some msg }) ∧
    (∀ s ∈ registry, selectedBy sourceIds s.sourceId = true →
      enabledCfg s.sourceId = true → tosGatePass s.tier tosAware = true →
      (run_scrapers registry sourceIds enabledCfg force dryRun tosAware).countP
          (fun r => r.source == s.sourceId) = 1) := by
  refine ⟨?_, ?_, ?_⟩
  · rw [countP_run_scrapers,
      countP_scheduledSources registry sourceIds enabledCfg tosAware hN e he hsel,
      if_pos (by rw [hen, hgate]; rfl)]
  · intro r hr hrs
    rcases mem_run_scrapers hr with ⟨s, hs, rfl⟩
    have hsid : s.sourceId = e.sourceId := by
      rw [← runSingle_source s force dryRun]
      exact hrs
    have hse : s = e :=
      eq_of_mem_selectCandidates_id hN he (mem_scheduledSources.mp hs).1 hsid
    subst hse
    simp [runSingle, hval]
  · intro s hs hsel2 hen2 hgate2
    rw [countP_run_scrapers,
      countP_scheduledSources registry sourceIds enabledCfg tosAware hN s hs hsel2,
      if_pos (by rw [hen2, hgate2]; rfl)]

/-- Witness for C2: a registry of an erroring tier1 source and a healthy
source in the (later) optional tier; both produce exactly one result. -/
theorem claim_C2_error_isolation_witness :
    ((run_scrapers
        [⟨"bad", Tier.tier1, Except.error "boom", false, Except.ok [], Except.ok ()⟩,
         ⟨"good", Tier.optional, Except.ok (), false, Except.ok [], Except.ok ()⟩]
        none (fun _ => true) false false true).countP
      (fun r => r.source == "bad") = 1) ∧
    ((run_scrapers
        [⟨"bad", Tier.tier1, Except.error "boom", false, Except.ok [], Except.ok ()⟩,
         ⟨"good", Tier.optional, Except.ok (), false, Except.ok [], Except.ok ()⟩]
        none (fun _ => true) false false true).countP
      (fun r => r.source == "good") = 1) := by
  have h := claim_C2_error_isolation
    [⟨"bad", Tier.tier1, Except.error "boom", false, Except.ok [], Except.ok ()⟩,
     ⟨"good", Tier.optional, Except.ok (), false, Except.ok [], Except.ok ()⟩]
    none (fun _ => true) false false true
    ⟨"bad", Tier.tier1, Except.error "boom", false, Except.ok [], Except.ok ()⟩ "boom"
    (by decide) (List.mem_cons_self _ _) rfl rfl rfl rfl
  refine ⟨h.1, ?_⟩
  exact h.2.2
    ⟨"good", Tier.optional, Except.ok (), false, Except.ok [], Except.ok ()⟩
    (List.mem_cons_of_mem _ (List.mem_cons_self _ _)) rfl rfl rfl

/-! ### Claim C3 -/

/-- C3: a requested, enabled tier2/tier3 source yields zero results when
the ToS-acknowledgment flag is off and exactly one when it is on; the
gate fires before scheduling, so without the flag the source never
enters the scheduled list at all. -/
theorem claim_C3_tier_gating (registry : List SourceRun) (ids : List String)
    (enabledCfg : String → Bool) (force dryRun : Bool) (e : SourceRun)
    (hN : (registry.map SourceRun.sourceId).Nodup) (he : e ∈ registry)
    (htier : e.tier = Tier.tier2 ∨ e.tier = Tier.tier3)
    (hreq : ids.contains e.sourceId = true) (hen : enabledCfg e.sourceId = true) :
    (e ∉ scheduledSources registry (some ids) enabledCfg false) ∧
    ((run_scrapers registry (some ids) enabledCfg force dryRun false).countP
        (fun r => r.source == e.sourceId) = 0) ∧
    ((run_scrapers registry (some ids) enabledCfg force dryRun true).countP
        (fun r => r.source == e.sourceId) = 1) := by
  have hsel : selectedBy (some ids) e.sourceId = true := by
    simp only [selectedBy, Bool.or_eq_true]
    right
    exact hreq
  have hgf : tosGatePass e.tier false = false := by
    rcases htier with h | h <;> rw [h] <;> rfl
  have hgt : tosGatePass e.tier true = true := by
    rcases htier with h | h <;> rw [h] <;> rfl
  refine ⟨?_, ?_, ?_⟩
  · intro hmem
    have h2 := (mem_scheduledSources.mp hmem).2
    rw [hen, hgf] at h2
    cases h2
  · rw [countP_run_scrapers,
      countP_scheduledSources registry (some ids) enabledCfg false hN e he hsel,
      if_neg (by rw [hen, hgf]; exact Bool.false_ne_true)]
  · rw [countP_run_scrapers,
      countP_scheduledSources registry (some ids) enabledCfg true hN e he hsel,
      if_pos (by rw [hen, hgt]; rfl)]

/-- Witness for C3: one tier2 source, requested by id; zero results
without the flag, one with it. -/
theorem claim_C3_tier_gating_witness :
    ((run_scrapers
        [⟨"trustpilot", Tier.tier2, Except.ok (), false, Except.ok [], Except.ok ()⟩]
        (some ["trustpilot"]) (fun _ => true) false false false).countP
      (fun r => r.source == "trustpilot") = 0) ∧
    ((run_scrapers
        [⟨"trustpilot", Tier.tier2, Except.ok (), false, Except.ok [], Except.ok ()⟩]
        (some ["trustpilot"]) (fun _ => true) false false true).countP
      (fun r => r.source == "trustpilot") = 1) := by
  have h := claim_C3_tier_gating
    [⟨"trustpilot", Tier.tier2, Except.ok (), false, Except.ok [], Except.ok ()⟩]
    ["trustpilot"] (fun _ => true) false false
    ⟨"trustpilot", Tier.tier2, Except.ok (), false, Except.ok [], Except.ok ()⟩
    (by decide) (List.mem_cons_self _ _) (Or.inl rfl) (by decide) rfl
  exact ⟨h.2.1, h.2.2⟩

/-! ### Claim C6 -/

/-- C6: each of `max_items`, `freshness_hours`, `rate_limit_delay`
resolves independently by the chain: adapter-specific source parameter
if its key is present, else the global default if its key is present,
else the hard-coded fallback (200 / 24.0 / 1.0); and the resolved value
for a field depends only on that field's two lookups, never on the other
fields' keys. -/
theorem claim_C6_config_defaulting (product_name product_slug : String)
    (sp g : PyDict) (env : List (String × String)) :
    ((∀ v, dictGet? sp "max_items" = some v →
        (ScraperConfig.from_raw product_name product_slug sp g env).max_items = v) ∧
      (dictGet? sp "max_items" = none → ∀ w, dictGet? g "default_max_items" = some w →
        (ScraperConfig.from_raw product_name product_slug sp g env).max_items = w) ∧
      (dictGet? sp "max_items" = none → dictGet? g "default_max_items" = none →
        (ScraperConfig.from_raw product_name product_slug sp g env).max_items
          = PyVal.int 200)) ∧
    ((∀ v, dictGet? sp "freshness_hours" = some v →
        (ScraperConfig.from_raw product_name product_slug sp g env).freshness_hours = v) ∧
      (dictGet? sp "freshness_hours" = none →
        ∀ w, dictGet? g "default_freshness_hours" = some w →
        (ScraperConfig.from_raw product_name product_slug sp g env).freshness_hours = w) ∧
      (dictGet? sp "freshness_hours" = none → dictGet? g "default_freshness_hours" = none →
        (ScraperConfig.from_raw product_name product_slug sp g env).freshness_hours
          = PyVal.num 24)) ∧
    ((∀ v, dictGet? sp "rate_limit_delay" = some v →
        (ScraperConfig.from_raw product_name product_slug sp g env).rate_limit_delay = v) ∧
      (dictGet? sp "rate_limit_delay" = none →
        ∀ w, dictGet? g "default_rate_limit_delay" = some w →
        (ScraperConfig.from_raw product_name product_slug sp g env).rate_limit_delay = w) ∧
      (dictGet? sp "rate_limit_delay" = none → dictGet? g "default_rate_limit_delay" = none →
        (ScraperConfig.from_raw product_name product_slug sp g env).rate_limit_delay
          = PyVal.num 1)) ∧
    (∀ sp' g' : PyDict,
      (dictGet? sp' "max_items" = dictGet? sp "max_items" →
        dictGet? g' "default_max_items" = dictGet? g "default_max_items" →
        (ScraperConfig.from_raw product_name product_slug sp' g' env).max_items
          = (ScraperConfig.from_raw product_name product_slug sp g env).max_items) ∧
      (dictGet? sp' "freshness_hours" = dictGet? sp "freshness_hours" →
        dictGet? g' "default_freshness_hours" = dictGet? g "default_freshness_hours" →
        (ScraperConfig.from_raw product_name product_slug sp' g' env).freshness_hours
          = (ScraperConfig.from_raw product_name product_slug sp g env).freshness_hours) ∧
      (dictGet? sp' "rate_limit_delay" = dictGet? sp "rate_limit_delay" →
        dictGet? g' "default_rate_limit_delay" = dictGet? g "default_rate_limit_delay" →
        (ScraperConfig.from_raw product_name product_slug sp' g' env).rate_limit_delay
          = (ScraperConfig.from_raw product_name product_slug sp g env).rate_limit_delay)) := by
  refine ⟨⟨?_, ?_, ?_⟩, ⟨?_, ?_, ?_⟩, ⟨?_, ?_, ?_⟩, ?_⟩
  · intro v hv
    simp [ScraperConfig.from_raw, dictGetD, hv]
  · intro h v hv
    simp [ScraperConfig.from_raw, dictGetD, h, hv]
  · intro h1 h2
    simp [ScraperConfig.from_raw, dictGetD, h1, h2]
  · intro v hv
    simp [ScraperConfig.from_raw, dictGetD, hv]
  · intro h v hv
    simp [ScraperConfig.from_raw, dictGetD, h, hv]
  · intro h1 h2
    simp [ScraperConfig.from_raw, dictGetD, h1, h2]
  · intro v hv
    simp [ScraperConfig.from_raw, dictGetD, hv]
  · intro h v hv
    simp [ScraperConfig.from_raw, dictGetD, h, hv]
  · intro h1 h2
    simp [ScraperConfig.from_raw, dictGetD, h1, h2]
  · intro sp' g'
    refine ⟨fun h1 h2 => ?_, fun h1 h2 => ?_, fun h1 h2 => ?_⟩ <;>
      simp [ScraperConfig.from_raw, dictGetD, h1, h2]

/-- Witness for C6: a source dict setting only `max_items`, a global
dict setting only the freshness default; the three fields resolve from
the three different levels of the chain. -/
theorem claim_C6_config_defaulting_witness :
    (ScraperConfig.from_raw "Notion" "notion" [("max_items", PyVal.int 50)]
        [("default_freshness_hours", PyVal.num 48)] []).max_items = PyVal.int 50
    ∧ (ScraperConfig.from_raw "Notion" "notion" [("max_items", PyVal.int 50)]
        [("default_freshness_hours", PyVal.num 48)] []).freshness_hours = PyVal.num 48
    ∧ (ScraperConfig.from_raw "Notion" "notion" [("max_items", PyVal.int 50)]
        [("default_freshness_hours", PyVal.num 48)] []).rate_limit_delay
        = PyVal.num 1 := by
  have h := claim_C6_config_defaulting "Notion" "notion" [("max_items", PyVal.int 50)]
    [("default_freshness_hours", PyVal.num 48)] []
  exact ⟨h.1.1 (PyVal.int 50) rfl, h.2.1.2.1 rfl (PyVal.num 48) rfl, h.2.2.1.2.2 rfl rfl⟩

/-! ### Date-pattern lemmas -/

/-- A list accepted by the `\d{4}-\d{2}-\d{2}` matcher has exactly the
ten-character dashed shape. -/
theorem isDatePattern_shape {l : List Char} (h : isDatePattern l = true) :
    ∃ y1 y2 y3 y4 m1 m2 d1 d2,
      l = [y1, y2, y3, y4, '-', m1, m2, '-', d1, d2] := by
  rcases l with _ | ⟨a1, _ | ⟨a2, _ | ⟨a3, _ | ⟨a4, _ | ⟨a5, _ | ⟨a6, _ | ⟨a7,
    _ | ⟨a8, _ | ⟨a9, _ | ⟨a10, _ | ⟨a11, t⟩⟩⟩⟩⟩⟩⟩⟩⟩⟩⟩ <;>
    try exact Bool.noConfusion h
  simp only [isDatePattern, Bool.and_eq_true, beq_iff_eq] at h
  exact ⟨a1, a2, a3, a4, a6, a7, a9, a10, by rw [h.1.1.1.1.1.2, h.1.1.2]⟩

/-- A date-pattern list is non-empty. -/
theorem isDatePattern_ne_nil {l : List Char} (h : isDatePattern l = true) :
    l ≠ [] := by
  rcases isDatePattern_shape h with ⟨y1, y2, y3, y4, m1, m2, d1, d2, rfl⟩
  exact List.cons_ne_nil _ _

/-- A date-pattern list is not a 9-13 digit run (it contains dashes). -/
theorem isDatePattern_not_ts {l : List Char} (h : isDatePattern l = true) :
    isTimestampDigits l = false := by
  rcases isDatePattern_shape h with ⟨y1, y2, y3, y4, m1, m2, d1, d2, rfl⟩
  have hd : Char.isDigit '-' = false := rfl
  simp [isTimestampDigits, hd]

/-- A string with a non-empty character list is non-empty. -/
theorem string_isEmpty_false_of_ne_nil {l : List Char} (h : l ≠ []) :
    (String.mk l).isEmpty = false := by
  rw [Bool.eq_false_iff]
  intro hc
  have h2 := (String.isEmpty_iff (String.mk l)).mp hc
  exact h (congrArg String.data h2)

/-! ### Claim C7 -/

/-- C7 counterexample: on the input string `"2024-13-45"`, which denotes
no valid calendar date (month 13, day 45) and so is unparseable as a
date, `normalize_date` does not return `None`: the pass-through branch
for strings already shaped `\d{4}-\d{2}-\d{2}` (date_parser.py lines
63-64) returns it verbatim without calendar validation. -/
theorem claim_C7_counterexample :
    normalize_date (fun _ => none) (DateInput.str "2024-13-45") = some "2024-13-45"
    ∧ validCalendarString "2024-13-45" = false := by
  constructor
  · simp only [normalize_date]
    decide
  · decide

/-- C7 as amended: `None` maps to `None`; a string whose stripped form
already matches `\d{4}-\d{2}-\d{2}` is returned verbatim (stripped),
with no calendar validation — so such strings are never rejected even
when invalid as dates; and the epoch-seconds input `1705276800` yields
`"2024-01-15"`.  All parts hold for every behaviour of the strptime /
dateutil tail. -/
theorem claim_C7_date_normalization (fallback : String → Option String) :
    (normalize_date fallback DateInput.none = none) ∧
    (∀ s, isDatePattern (pyStrip s).data = true →
      normalize_date fallback (DateInput.str s) = some (pyStrip s)) ∧
    (normalize_date fallback (DateInput.int 1705276800) = some "2024-01-15") := by
  refine ⟨rfl, ?_, ?_⟩
  · intro s hpat
    have h1 : (pyStrip s).isEmpty = false :=
      string_isEmpty_false_of_ne_nil (isDatePattern_ne_nil hpat)
    have h2 : isTimestampDigits (pyStrip s).data = false := isDatePattern_not_ts hpat
    simp [normalize_date, h1, h2, hpat]
  · have hq : (((1705276800 : Int) : ℚ)) / 86400 = ((19737 : Int) : ℚ) := by norm_num
    have hle : ¬ (((1705276800 : Int) : ℚ) > 10000000000) := by norm_num
    simp only [normalize_date, tsToDateString, fromtimestampDate, if_neg hle, hq,
      Int.floor_intCast]
    decide

/-- Witness for C7 (amended) at concrete inputs. -/
theorem claim_C7_date_normalization_witness :
    normalize_date (fun _ => none) (DateInput.str "2024-03-20") = some (pyStrip "2024-03-20")
    ∧ normalize_date (fun _ => none) (DateInput.int 1705276800) = some "2024-01-15" :=
  ⟨(claim_C7_date_normalization (fun _ => none)).2.1 "2024-03-20" (by decide),
    (claim_C7_date_normalization (fun _ => none)).2.2⟩

end FeedbackScraper
